import Mathlib

/-!
Shallow embedding of the tag-compliance engine of the
`python-cloud-automation` repository (`src/tag_compliance.py`,
`src/config.py`, `src/azure_client.py`), with theorems checking the
specification's claims about it.

Python dicts are modelled as association lists in insertion order with
unique keys; lookup returns the value of the first matching key.
Timestamps (`datetime.utcnow()`) are passed in as explicit string
parameters.  Python `float` arithmetic on compliance rates is modelled
over `ℚ`; `round(x, 2)` is modelled as round-half-to-even at two decimal
places, which is Python's documented rounding mode (the binary-float
representation error of `round` is not modelled, and no claim depends
on it).
-/

namespace TagCompliance

/-- Keys of a Python dict are modelled as strings; tag dicts map tag
names to tag values, kept in insertion order. -/
abbrev Tags := List (String × String)

/-- Python key-membership test `k in d` on a dict. -/
def dictContains (d : Tags) (k : String) : Bool :=
  d.any (fun p => p.1 == k)

/-- Python dict merge `{**a, **b}`: the keys of `a` in their order, each
with `b`'s value when `b` also has the key, followed by the entries of
`b` whose keys are not in `a`. -/
def dictMerge (a b : Tags) : Tags :=
  a.map (fun p => (p.1, (List.lookup p.1 b).getD p.2)) ++
    b.filter (fun p => !dictContains a p.1)

/-- The `ComplianceResult` dataclass of `tag_compliance.py`. -/
structure ComplianceResult where
  resource_id : String
  resource_name : String
  resource_type : String
  resource_group : String
  subscription_id : String
  current_tags : Tags
  missing_tags : List String
  compliance_status : String
  timestamp : String
  estimated_monthly_cost : ℚ
deriving DecidableEq

/-- The slice of an Azure resource dict consumed by
`check_resource_compliance`.  `tags` is `none` when the key is absent or
its value is Python `None`; both are sent to `{}` by
`resource.get('tags', {}) or {}`. -/
structure Resource where
  id : String
  name : String
  type : String
  tags : Option Tags

/-- Resource-group extraction of `tag_compliance.py` line 70:
`resource['id'].split('/')[4] if len(resource['id'].split('/')) > 4 else 'unknown'`. -/
def resourceGroupOf (rid : String) : String :=
  let parts := rid.splitOn "/"
  if h : 4 < parts.length then parts[4] else "unknown"

/-- `AzureTagComplianceChecker.check_resource_compliance` (lines 52-76):
missing tags are the required tags not present as keys of the resource's
tags (absent/null tags treated as empty), and the status is
`'compliant'` exactly when no tag is missing. -/
def check_resource_compliance (required_tags : List String)
    (resource : Resource) (subscription_id : String) (now : String) :
    ComplianceResult :=
  let current_tags := resource.tags.getD []
  let missing_tags :=
    required_tags.filter (fun tag => !dictContains current_tags tag)
  let compliance_status :=
    if missing_tags.isEmpty then "compliant" else "non_compliant"
  { resource_id := resource.id
    resource_name := resource.name
    resource_type := resource.type
    resource_group := resourceGroupOf resource.id
    subscription_id := subscription_id
    current_tags := current_tags
    missing_tags := missing_tags
    compliance_status := compliance_status
    timestamp := now
    estimated_monthly_cost := 0 }

/-- Floor of a rational as an integer, via Euclidean division of the
numerator by the (positive) denominator. -/
def ratFloorZ (q : ℚ) : ℤ := Int.ediv q.num q.den

/-- Python's round-half-to-even of a rational to an integer. -/
def roundHalfEven (q : ℚ) : ℤ :=
  let f := ratFloorZ q
  if q - f < 1/2 then f
  else if 1/2 < q - f then f + 1
  else if f % 2 = 0 then f else f + 1

/-- Python `round(x, 2)` over the rational model. -/
def pyRound2 (q : ℚ) : ℚ := (roundHalfEven (q * 100) : ℚ) / 100

/-- One value of the `tag_statistics` mapping of the report. -/
structure TagStat where
  missing_count : Nat
  compliance_rate : ℚ
deriving DecidableEq

/-- A Python dict key as produced by the report: pandas
`value_counts().to_dict()` yields tuple keys, other report dicts use
string keys. -/
inductive PyKey where
  | str : String → PyKey
  | pair : String → String → PyKey
deriving DecidableEq

/-- The `summary` object of the compliance report. -/
structure Summary where
  total_resources : Nat
  compliant : Nat
  non_compliant : Nat
  remediated : Nat
  overall_compliance_rate : ℚ
deriving DecidableEq

/-- The report dict returned by `generate_compliance_report`; the inner
dicts are modelled as association lists. -/
structure Report where
  scan_timestamp : String
  summary : Summary
  tag_statistics : List (String × TagStat)
  resource_type_breakdown : List (PyKey × Nat)
  top_violators : List (String × Nat)
deriving DecidableEq

/-- Python string comparison: lexicographic on the code points, i.e. on
`String.data` (used as the sort key model because it is what both
Python `sorted` and pandas index sorting compare by). -/
def pyStrLE (a b : String) : Prop := a.data ≤ b.data

instance : DecidableRel pyStrLE :=
  fun a b => inferInstanceAs (Decidable (a.data ≤ b.data))

instance : IsTotal String pyStrLE := ⟨fun a b => le_total a.data b.data⟩

instance : IsTrans String pyStrLE := ⟨fun _ _ _ h h' => le_trans h h'⟩

/-- Comparison of `(resource_group, count)` entries by count, the key of
`sort_values` on the grouped sizes. -/
def countLE (p q : String × Nat) : Prop := p.2 ≤ q.2

instance : DecidableRel countLE :=
  fun p q => inferInstanceAs (Decidable (p.2 ≤ q.2))

instance : IsTotal (String × Nat) countLE := ⟨fun p q => Nat.le_total p.2 q.2⟩

instance : IsTrans (String × Nat) countLE :=
  ⟨fun _ _ _ h h' => Nat.le_trans h h'⟩

/-- `AzureTagComplianceChecker.generate_compliance_report`
(tag_compliance.py lines 155-219).  The pandas pipeline is modelled as
follows: `groupby` (with its default `sort=True`) produces the distinct
keys sorted ascending, each with its count; `sort_values` with
`ascending=False` is the reverse of the stable ascending sort of the
values (pandas computes the ascending argsort and reverses it); `head`
is `take`; `to_dict` keeps the association list.  The iteration order of
`resource_type_breakdown` on the Lean side is the order of distinct
`(resource_type, compliance_status)` pairs kept by `dedup`; no claim
depends on that order, only on the keys and counts. -/
def generate_compliance_report (required_tags : List String)
    (results : List ComplianceResult) (now : String) : Report :=
  if results.isEmpty then
    { scan_timestamp := now
      summary :=
        { total_resources := 0
          compliant := 0
          non_compliant := 0
          remediated := 0
          overall_compliance_rate := 0 }
      tag_statistics := []
      resource_type_breakdown := []
      top_violators := [] }
  else
    let total_resources := results.length
    let compliant_resources :=
      (results.filter (fun r => r.compliance_status == "compliant")).length
    let non_compliant_resources :=
      (results.filter (fun r => r.compliance_status == "non_compliant")).length
    let remediated_resources :=
      (results.filter (fun r => r.compliance_status == "remediated")).length
    let compliance_rate : ℚ :=
      if total_resources > 0 then
        (compliant_resources : ℚ) / (total_resources : ℚ) * 100
      else 0
    let tag_statistics := required_tags.map (fun tag =>
      let missing_count :=
        (results.filter (fun r => r.missing_tags.contains tag)).length
      (tag,
        { missing_count := missing_count
          compliance_rate :=
            if total_resources > 0 then
              ((total_resources : ℚ) - (missing_count : ℚ)) /
                (total_resources : ℚ) * 100
            else 0 : TagStat }))
    let type_breakdown :=
      ((results.map (fun r => (r.resource_type, r.compliance_status))).dedup).map
        (fun p => (PyKey.pair p.1 p.2,
          (results.filter (fun r =>
            r.resource_type == p.1 && r.compliance_status == p.2)).length))
    let nc :=
      results.filter (fun r => r.compliance_status == "non_compliant")
    let group_names :=
      List.insertionSort pyStrLE ((nc.map (fun r => r.resource_group)).dedup)
    let group_counts := group_names.map (fun g =>
      (g, (nc.filter (fun r => r.resource_group == g)).length))
    let top_violators :=
      ((List.insertionSort countLE group_counts).reverse).take 10
    { scan_timestamp := now
      summary :=
        { total_resources := total_resources
          compliant := compliant_resources
          non_compliant := non_compliant_resources
          remediated := remediated_resources
          overall_compliance_rate := pyRound2 compliance_rate }
      tag_statistics := tag_statistics
      resource_type_breakdown := type_breakdown
      top_violators := top_violators }

/-- The tag set written by `AzureTagComplianceChecker.auto_remediate`
(tag_compliance.py line 139):
`updated_tags = {**(resource.tags or {}), **default_tags}`. -/
def auto_remediate_tags (resource_tags : Option Tags)
    (default_tags : Tags) : Tags :=
  dictMerge (resource_tags.getD []) default_tags

/-- The tag set written by `AzureClient.update_resource_tags` in its
merge branch (azure_client.py line 235):
`updated_tags = {**(existing_resource.tags or {}), **tags}`. -/
def update_resource_tags_merged (existing_tags : Option Tags)
    (tags : Tags) : Tags :=
  dictMerge (existing_tags.getD []) tags

/-- The `RemediationRule` dataclass of `config.py`. -/
structure RemediationRule where
  resource_type : String
  action : String
  default_tags : Tags
  enabled : Bool
deriving DecidableEq

/-- `Config.get_remediation_rule` (config.py lines 197-217): first
enabled rule with an exact resource-type match, else first enabled
wildcard rule, else nothing. -/
def get_remediation_rule (rules : List RemediationRule)
    (resource_type : String) : Option RemediationRule :=
  match rules.find?
      (fun rule => rule.resource_type == resource_type && rule.enabled) with
  | some rule => some rule
  | none =>
    rules.find? (fun rule => rule.resource_type == "*" && rule.enabled)

/-- A remediation plan, spec section 4.2. -/
structure RemediationPlan where
  resource_id : String
  tags_to_write : Tags
  merge_with_existing : Bool

/-- Modelled from the spec: the Remediation Planner (`planRemediation`,
spec section 4.2) is missing from the source.  No code under `src/`
gates remediation on the verdict: `auto_remediate` takes only a resource
id and default tags and is invoked by no caller in `src/`.  Per the
spec: decline (return nothing) for a resource whose verdict is already
`compliant`; otherwise select the rule exact-first then wildcard (as the
source `get_remediation_rule` does); `notify_only` yields no write plan;
other actions plan the rule's default tags merged with existing tags. -/
def planRemediation (verdict : ComplianceResult)
    (rules : List RemediationRule) : Option RemediationPlan :=
  if verdict.compliance_status == "compliant" then none
  else
    match get_remediation_rule rules verdict.resource_type with
    | none => none
    | some rule =>
      if rule.action == "notify_only" then none
      else
        some { resource_id := verdict.resource_id
               tags_to_write := rule.default_tags
               merge_with_existing := true }

/-- Key membership in the dict model agrees with membership in the list
of keys. -/
theorem dictContains_iff (d : Tags) (k : String) :
    dictContains d k = true ↔ k ∈ d.map Prod.fst := by
  simp [dictContains, List.any_eq_true]

/-- Boolean form of `dictContains_iff`. -/
theorem dictContains_eq_decide (d : Tags) (k : String) :
    dictContains d k = decide (k ∈ d.map Prod.fst) := by
  rw [Bool.eq_iff_iff]
  simp [dictContains_iff]

/-- C1: for every resource (tags possibly absent or null, treated as
empty) and every ordered list of required tag names, the verdict's
`missing_tags` is exactly the sublist of required tags whose names are
not keys of the resource's tags, in required-tag order, and the status
is `'compliant'` iff that list is empty (so with no required tags every
resource is compliant). -/
theorem check_resource_compliance_spec (required_tags : List String)
    (resource : Resource) (subscription_id now : String) :
    (check_resource_compliance required_tags resource subscription_id
        now).missing_tags =
      required_tags.filter
        (fun tag => tag ∉ (resource.tags.getD []).map Prod.fst) ∧
    ((check_resource_compliance required_tags resource subscription_id
        now).compliance_status = "compliant" ↔
      (check_resource_compliance required_tags resource subscription_id
        now).missing_tags = []) := by
  constructor
  · simp only [check_resource_compliance]
    apply List.filter_congr
    intro tag _
    simp [dictContains_eq_decide]
  · simp only [check_resource_compliance]
    by_cases h :
        (required_tags.filter
          (fun tag => !dictContains (resource.tags.getD []) tag)).isEmpty
    · simp [h, List.isEmpty_iff.mp h]
    · simp only [h, if_false]
      constructor
      · intro hc
        exact absurd hc (by decide)
      · intro hc
        exact absurd (List.isEmpty_iff.mpr hc) (by simpa using h)

/-- Looking a key up in the overridden copy of `a` made by `dictMerge`
gives `a`'s value with `b`'s override applied. -/
theorem lookup_map_override (a b : Tags) (k : String) :
    (a.map (fun p => (p.1, (List.lookup p.1 b).getD p.2))).lookup k =
      (a.lookup k).map (fun v => (b.lookup k).getD v) := by
  induction a with
  | nil => rfl
  | cons p t ih =>
    obtain ⟨k', v⟩ := p
    by_cases hk : k = k'
    · subst hk
      simp [List.lookup_cons]
    · have hb : (k == k') = false := beq_eq_false_iff_ne.mpr hk
      simp [List.lookup_cons, hb, ih]

/-- Filtering out the keys of `a` does not affect lookups of keys not in
`a`. -/
theorem lookup_filter_of_not_mem (a b : Tags) (k : String)
    (h : k ∉ a.map Prod.fst) :
    (b.filter (fun p => !dictContains a p.1)).lookup k = b.lookup k := by
  induction b with
  | nil => rfl
  | cons q t ih =>
    obtain ⟨k', v⟩ := q
    by_cases hk : k = k'
    · subst hk
      have hc : dictContains a k = false := by
        cases hcc : dictContains a k
        · rfl
        · exact absurd ((dictContains_iff a k).mp hcc) h
      simp [List.filter_cons, hc, List.lookup_cons]
    · have hb : (k == k') = false := beq_eq_false_iff_ne.mpr hk
      cases hq : dictContains a k' <;>
        simp [List.filter_cons, hq, List.lookup_cons, hb, ih]

/-- Lookup through the Python merge `{**a, **b}`: `b`'s binding wins,
`a`'s is only used when `b` lacks the key. -/
theorem lookup_dictMerge (a b : Tags) (k : String) :
    (dictMerge a b).lookup k = (b.lookup k).or (a.lookup k) := by
  rw [dictMerge, List.lookup_append, lookup_map_override]
  by_cases hk : k ∈ a.map Prod.fst
  · obtain ⟨p, hp, hpk⟩ := List.mem_map.mp hk
    have hs : ∃ v, a.lookup k = some v := by
      have : (a.lookup k).isSome := by
        rw [List.lookup_isSome_iff]
        exact ⟨p, hp, by simp [hpk]⟩
      exact Option.isSome_iff_exists.mp this
    obtain ⟨v, hv⟩ := hs
    rw [hv]
    cases hb : b.lookup k <;> simp [hb]
  · have ha : a.lookup k = none := by
      rw [List.lookup_eq_none_iff]
      intro p hp
      simp only [bne_iff_ne]
      intro hkp
      exact hk (List.mem_map.mpr ⟨p, hp, hkp.symm⟩)
    rw [ha, lookup_filter_of_not_mem a b k hk]
    cases hb : b.lookup k <;> simp

/-- C2 (amended): for every existing tag mapping E and default mapping D
applied by remediation, the written tag set is the union of E and D in
which, on any key present in both, the policy default from D wins and
overwrites the existing value from E; E's value is used only for keys D
lacks.  This holds for both merge sites (`auto_remediate` and
`update_resource_tags`). -/
theorem remediation_merge_default_wins (existing defaults : Tags)
    (k : String) :
    (auto_remediate_tags (some existing) defaults).lookup k =
      (defaults.lookup k).or (existing.lookup k) ∧
    (update_resource_tags_merged (some existing) defaults).lookup k =
      (defaults.lookup k).or (existing.lookup k) :=
  ⟨lookup_dictMerge existing defaults k, lookup_dictMerge existing defaults k⟩

/-- C2 counterexample: with existing tags `{"Owner": "alice"}` and
remediation defaults `{"Owner": "auto"}`, the written tag set does not
keep the existing value `"alice"` (the default overwrites it), refuting
the claim that the existing resource tag is never overwritten. -/
theorem remediation_merge_existing_overwritten :
    (auto_remediate_tags (some [("Owner", "alice")])
        [("Owner", "auto")]).lookup "Owner" ≠ some "alice" := by
  decide

/-- C3 (amended): on an empty verdict collection the report is the
well-formed zero-valued report: all summary counts 0, rate 0.0, and
`tag_statistics`, `resource_type_breakdown` and `top_violators` are
empty mappings; in particular `tag_statistics` has no per-tag entries,
not a zero entry per required tag. -/
theorem generate_compliance_report_empty (required_tags : List String)
    (now : String) :
    generate_compliance_report required_tags [] now =
      { scan_timestamp := now
        summary :=
          { total_resources := 0
            compliant := 0
            non_compliant := 0
            remediated := 0
            overall_compliance_rate := 0 }
        tag_statistics := []
        resource_type_breakdown := []
        top_violators := [] } := rfl

/-- C3 counterexample: with required tag `"Owner"` and an empty verdict
collection the report's `tag_statistics` has no entry for `"Owner"`,
refuting the claim that every required tag gets a zero-count entry. -/
theorem empty_report_missing_tag_statistics :
    ((generate_compliance_report ["Owner"] [] "t").tag_statistics).lookup
      "Owner" = none := rfl

/-- C7: the (spec-modelled) remediation planner declines for a resource
whose verdict is already `compliant`, whatever rules exist. -/
theorem planRemediation_compliant_none (verdict : ComplianceResult)
    (rules : List RemediationRule)
    (h : verdict.compliance_status = "compliant") :
    planRemediation verdict rules = none := by
  simp [planRemediation, h]

/-- C7 witness: a compliant verdict is declined even with an enabled
exact-match rule and an enabled wildcard rule present. -/
theorem planRemediation_compliant_none_witness :
    (⟨"rid", "vm", "Microsoft.Compute/virtualMachines", "rg", "sub", [],
        [], "compliant", "t", 0⟩ :
      ComplianceResult).compliance_status = "compliant" ∧
    planRemediation
      ⟨"rid", "vm", "Microsoft.Compute/virtualMachines", "rg", "sub", [],
        [], "compliant", "t", 0⟩
      [⟨"Microsoft.Compute/virtualMachines", "add_tags",
          [("Environment", "Unknown")], true⟩,
        ⟨"*", "add_tags", [("ManagedBy", "Automation")], true⟩] = none :=
  ⟨rfl, planRemediation_compliant_none _ _ rfl⟩

/-- Rounding an integer-valued rational changes nothing. -/
theorem pyRound2_intCast (n : ℤ) : pyRound2 ((n : ℚ)) = (n : ℚ) := by
  have harg : ((n : ℚ)) * 100 = ((n * 100 : ℤ) : ℚ) := by push_cast; ring
  have hfloor : ratFloorZ ((n * 100 : ℤ) : ℚ) = n * 100 := by
    rw [ratFloorZ, Rat.num_intCast, Rat.den_intCast]
    rcases hm : n * 100 with m | m <;> simp [Int.ediv]
  have hround : roundHalfEven ((n * 100 : ℤ) : ℚ) = n * 100 := by
    rw [roundHalfEven]
    simp only [hfloor]
    rw [if_pos]
    norm_num
  rw [pyRound2, harg, hround]
  push_cast
  field_simp

/-- C9: the compliance report is a pure function of the verdict
collection and the required tags; running it again on the same
(unmutated) inputs reproduces the summary, tag statistics, resource-type
breakdown and top violators exactly, whatever the two scan timestamps
are. -/
theorem generate_compliance_report_timestamp_invariant
    (required_tags : List String) (results : List ComplianceResult)
    (ts1 ts2 : String) :
    (generate_compliance_report required_tags results ts1).summary =
      (generate_compliance_report required_tags results ts2).summary ∧
    (generate_compliance_report required_tags results ts1).tag_statistics =
      (generate_compliance_report required_tags results ts2).tag_statistics ∧
    (generate_compliance_report required_tags results
        ts1).resource_type_breakdown =
      (generate_compliance_report required_tags results
        ts2).resource_type_breakdown ∧
    (generate_compliance_report required_tags results ts1).top_violators =
      (generate_compliance_report required_tags results ts2).top_violators := by
  cases h : results.isEmpty <;> simp [generate_compliance_report, h]

/-- Counting verdicts of a status by filtering equals counting the
status in the projected status list. -/
theorem count_status (results : List ComplianceResult) (s : String) :
    (results.map (fun r => r.compliance_status)).count s =
      (results.filter (fun r => r.compliance_status == s)).length := by
  rw [List.count, List.countP_map, List.countP_eq_length_filter]
  rfl

/-- A list in which every element has one of three mutually exclusive
statuses is as long as its three status filters together. -/
theorem length_filter_three (l : List ComplianceResult)
    (h : ∀ r ∈ l, r.compliance_status = "compliant" ∨
      r.compliance_status = "non_compliant" ∨
      r.compliance_status = "remediated") :
    l.length =
      (l.filter (fun r => r.compliance_status == "compliant")).length +
      (l.filter (fun r => r.compliance_status == "non_compliant")).length +
      (l.filter (fun r => r.compliance_status == "remediated")).length := by
  induction l with
  | nil => rfl
  | cons r t ih =>
    have hr := h r (List.mem_cons_self r t)
    have ht := ih (fun x hx => h x (List.mem_cons_of_mem r hx))
    rcases hr with h1 | h1 | h1 <;>
      simp [List.filter_cons, h1, ht] <;> omega

/-- C10: whenever every verdict's status is one of the three statuses
the system assigns, the summary's total equals
compliant + non_compliant + remediated. -/
theorem summary_total_partition (required_tags : List String)
    (results : List ComplianceResult) (now : String)
    (h : ∀ r ∈ results, r.compliance_status = "compliant" ∨
      r.compliance_status = "non_compliant" ∨
      r.compliance_status = "remediated") :
    (generate_compliance_report required_tags results
        now).summary.total_resources =
      (generate_compliance_report required_tags results
        now).summary.compliant +
      (generate_compliance_report required_tags results
        now).summary.non_compliant +
      (generate_compliance_report required_tags results
        now).summary.remediated := by
  cases he : results.isEmpty with
  | true => simp [generate_compliance_report, he]
  | false =>
    simp only [generate_compliance_report, he, Bool.false_eq_true,
      if_false]
    exact length_filter_three results h

/-- C10 witness: the partition identity holds on a concrete collection
with one compliant and one non-compliant verdict. -/
theorem summary_total_partition_witness :
    (∀ r ∈ ([⟨"id1", "vm1", "T", "rg", "sub", [], [], "compliant", "t", 0⟩,
        ⟨"id2", "vm2", "T", "rg", "sub", [], ["Owner"], "non_compliant",
          "t", 0⟩] : List ComplianceResult),
      r.compliance_status = "compliant" ∨
      r.compliance_status = "non_compliant" ∨
      r.compliance_status = "remediated") ∧
    (generate_compliance_report ["Owner"]
        [⟨"id1", "vm1", "T", "rg", "sub", [], [], "compliant", "t", 0⟩,
          ⟨"id2", "vm2", "T", "rg", "sub", [], ["Owner"], "non_compliant",
            "t", 0⟩] "t").summary.total_resources =
      (generate_compliance_report ["Owner"]
        [⟨"id1", "vm1", "T", "rg", "sub", [], [], "compliant", "t", 0⟩,
          ⟨"id2", "vm2", "T", "rg", "sub", [], ["Owner"], "non_compliant",
            "t", 0⟩] "t").summary.compliant +
      (generate_compliance_report ["Owner"]
        [⟨"id1", "vm1", "T", "rg", "sub", [], [], "compliant", "t", 0⟩,
          ⟨"id2", "vm2", "T", "rg", "sub", [], ["Owner"], "non_compliant",
            "t", 0⟩] "t").summary.non_compliant +
      (generate_compliance_report ["Owner"]
        [⟨"id1", "vm1", "T", "rg", "sub", [], [], "compliant", "t", 0⟩,
          ⟨"id2", "vm2", "T", "rg", "sub", [], ["Owner"], "non_compliant",
            "t", 0⟩] "t").summary.remediated :=
  ⟨by decide, summary_total_partition _ _ _ (by decide)⟩

/-- C8 (amended): on a non-empty verdict collection the summary counts
are the per-status counts of the collection and the overall rate is
compliant/total*100 rounded to two decimals; in particular 2 compliant
verdicts out of 2 give exactly 100.0 (not 50.0; 50.0 is the rate of 1
compliant out of 2). -/
theorem report_summary_counts_and_rate (required_tags : List String)
    (results : List ComplianceResult) (now : String) (h : results ≠ []) :
    (generate_compliance_report required_tags results
        now).summary.total_resources = results.length ∧
    (generate_compliance_report required_tags results
        now).summary.compliant =
      (results.map (fun r => r.compliance_status)).count "compliant" ∧
    (generate_compliance_report required_tags results
        now).summary.non_compliant =
      (results.map (fun r => r.compliance_status)).count "non_compliant" ∧
    (generate_compliance_report required_tags results
        now).summary.remediated =
      (results.map (fun r => r.compliance_status)).count "remediated" ∧
    (generate_compliance_report required_tags results
        now).summary.overall_compliance_rate =
      pyRound2
        ((((results.map (fun r => r.compliance_status)).count
            "compliant" : ℕ) : ℚ) / (results.length : ℚ) * 100) := by
  have he : results.isEmpty = false := by
    cases results with
    | nil => exact absurd rfl h
    | cons a t => rfl
  have hp : 0 < results.length := List.length_pos.mpr h
  have hc := count_status results "compliant"
  have hn := count_status results "non_compliant"
  have hr := count_status results "remediated"
  simp [generate_compliance_report, he, hp, hc, hn, hr]

/-- C8 witness: the count-and-rate characterisation applied to a
concrete one-verdict collection. -/
theorem report_summary_counts_and_rate_witness :
    (([⟨"id1", "vm1", "T", "rg", "sub", [], [], "compliant", "t", 0⟩] :
      List ComplianceResult) ≠ []) ∧
    ((generate_compliance_report []
        [⟨"id1", "vm1", "T", "rg", "sub", [], [], "compliant", "t", 0⟩]
        "t").summary.total_resources =
      ([⟨"id1", "vm1", "T", "rg", "sub", [], [], "compliant", "t", 0⟩] :
        List ComplianceResult).length ∧
    (generate_compliance_report []
        [⟨"id1", "vm1", "T", "rg", "sub", [], [], "compliant", "t", 0⟩]
        "t").summary.compliant =
      (([⟨"id1", "vm1", "T", "rg", "sub", [], [], "compliant", "t", 0⟩] :
        List ComplianceResult).map
        (fun r => r.compliance_status)).count "compliant" ∧
    (generate_compliance_report []
        [⟨"id1", "vm1", "T", "rg", "sub", [], [], "compliant", "t", 0⟩]
        "t").summary.non_compliant =
      (([⟨"id1", "vm1", "T", "rg", "sub", [], [], "compliant", "t", 0⟩] :
        List ComplianceResult).map
        (fun r => r.compliance_status)).count "non_compliant" ∧
    (generate_compliance_report []
        [⟨"id1", "vm1", "T", "rg", "sub", [], [], "compliant", "t", 0⟩]
        "t").summary.remediated =
      (([⟨"id1", "vm1", "T", "rg", "sub", [], [], "compliant", "t", 0⟩] :
        List ComplianceResult).map
        (fun r => r.compliance_status)).count "remediated" ∧
    (generate_compliance_report []
        [⟨"id1", "vm1", "T", "rg", "sub", [], [], "compliant", "t", 0⟩]
        "t").summary.overall_compliance_rate =
      pyRound2
        (((((([⟨"id1", "vm1", "T", "rg", "sub", [], [], "compliant", "t",
          0⟩] : List ComplianceResult).map
          (fun r => r.compliance_status)).count "compliant" : ℕ) : ℚ)) /
          ((([⟨"id1", "vm1", "T", "rg", "sub", [], [], "compliant", "t",
            0⟩] : List ComplianceResult).length : ℚ)) * 100)) :=
  ⟨by simp, report_summary_counts_and_rate _ _ _ (by simp)⟩

/-- C8 counterexample: with 2 compliant verdicts out of 2 the overall
compliance rate is exactly 100, not 50 as claimed. -/
theorem rate_two_of_two_not_fifty :
    (generate_compliance_report []
        ([⟨"id1", "vm1", "T", "rg", "sub", [], [], "compliant", "t", 0⟩,
          ⟨"id2", "vm2", "T", "rg", "sub", [], [], "compliant", "t", 0⟩] :
          List ComplianceResult) "t").summary.overall_compliance_rate =
      100 ∧
    (generate_compliance_report []
        ([⟨"id1", "vm1", "T", "rg", "sub", [], [], "compliant", "t", 0⟩,
          ⟨"id2", "vm2", "T", "rg", "sub", [], [], "compliant", "t", 0⟩] :
          List ComplianceResult) "t").summary.overall_compliance_rate ≠
      50 := by
  have h1 : (generate_compliance_report []
      ([⟨"id1", "vm1", "T", "rg", "sub", [], [], "compliant", "t", 0⟩,
        ⟨"id2", "vm2", "T", "rg", "sub", [], [], "compliant", "t", 0⟩] :
        List ComplianceResult) "t").summary.overall_compliance_rate =
      pyRound2 (((2 : ℕ) : ℚ) / ((2 : ℕ) : ℚ) * 100) := rfl
  have h2 : (((2 : ℕ) : ℚ) / ((2 : ℕ) : ℚ) * 100) = ((100 : ℤ) : ℚ) := by
    norm_num
  rw [h1, h2, pyRound2_intCast]
  norm_num

/-- C6: complete characterisation of `get_remediation_rule`: it returns
the first enabled rule in list order whose resource type exactly equals
the requested type; failing that, the first enabled wildcard rule;
failing that, nothing.  An enabled exact match is always preferred over
any wildcard rule. -/
theorem get_remediation_rule_spec (rules : List RemediationRule)
    (t : String) :
    (∃ pre rule post, rules = pre ++ rule :: post ∧ rule.enabled = true ∧
      rule.resource_type = t ∧
      (∀ r ∈ pre, ¬ (r.resource_type = t ∧ r.enabled = true)) ∧
      get_remediation_rule rules t = some rule) ∨
    ((∀ r ∈ rules, ¬ (r.resource_type = t ∧ r.enabled = true)) ∧
      ∃ pre rule post, rules = pre ++ rule :: post ∧ rule.enabled = true ∧
        rule.resource_type = "*" ∧
        (∀ r ∈ pre, ¬ (r.resource_type = "*" ∧ r.enabled = true)) ∧
        get_remediation_rule rules t = some rule) ∨
    ((∀ r ∈ rules, ¬ (r.resource_type = t ∧ r.enabled = true)) ∧
      (∀ r ∈ rules, ¬ (r.resource_type = "*" ∧ r.enabled = true)) ∧
      get_remediation_rule rules t = none) := by
  cases h1 : rules.find?
      (fun rule => rule.resource_type == t && rule.enabled) with
  | some rule =>
    left
    obtain ⟨hp, pre, post, heq, hpre⟩ := List.find?_eq_some.mp h1
    simp only [Bool.and_eq_true, beq_iff_eq] at hp
    refine ⟨pre, rule, post, heq, hp.2, hp.1, ?_, ?_⟩
    · intro r hr hcon
      have hx := hpre r hr
      simp [hcon.1, hcon.2] at hx
    · simp [get_remediation_rule, h1]
  | none =>
    have hnone : ∀ r ∈ rules, ¬ (r.resource_type = t ∧ r.enabled = true) := by
      intro r hr hcon
      have hx := List.find?_eq_none.mp h1 r hr
      simp [hcon.1, hcon.2] at hx
    cases h2 : rules.find?
        (fun rule => rule.resource_type == "*" && rule.enabled) with
    | some rule =>
      right; left
      obtain ⟨hp, pre, post, heq, hpre⟩ := List.find?_eq_some.mp h2
      simp only [Bool.and_eq_true, beq_iff_eq] at hp
      refine ⟨hnone, pre, rule, post, heq, hp.2, hp.1, ?_, ?_⟩
      · intro r hr hcon
        have hx := hpre r hr
        simp [hcon.1, hcon.2] at hx
      · simp [get_remediation_rule, h1, h2]
    | none =>
      right; right
      refine ⟨hnone, ?_, by simp [get_remediation_rule, h1, h2]⟩
      intro r hr hcon
      have hx := List.find?_eq_none.mp h2 r hr
      simp [hcon.1, hcon.2] at hx

/-- Looking up a pair key in an association list keyed by
`PyKey.pair` over distinct-or-not source pairs: the first hit carries
the count function's value at that pair. -/
theorem lookup_pair_map (l : List (String × String))
    (cnt : String × String → Nat) (t s : String) :
    (l.map (fun p => (PyKey.pair p.1 p.2, cnt p))).lookup
        (PyKey.pair t s) =
      if (t, s) ∈ l then some (cnt (t, s)) else none := by
  induction l with
  | nil => simp
  | cons p ls ih =>
    by_cases hp : p = (t, s)
    · subst hp
      simp [List.lookup_cons]
    · have hb : (PyKey.pair t s == PyKey.pair p.1 p.2) = false := by
        apply beq_eq_false_iff_ne.mpr
        intro hcon
        obtain ⟨h1, h2⟩ := PyKey.pair.inj hcon
        exact hp (Prod.ext h1.symm h2.symm)
      have hp' : ¬ ((t, s) = p) := fun hcon => hp hcon.symm
      simp [List.lookup_cons, hb, ih, hp']

/-- C5 (amended): the report's `resource_type_breakdown` maps, for each
`(resourceType, status)` pair that occurs among the verdicts, the pair
itself (the tuple produced by pandas `value_counts().to_dict()`, not a
pipe-joined string) to the number of verdicts with that resource type
and that compliance status, and holds no entry for pairs that do not
occur. -/
theorem resource_type_breakdown_spec (required_tags : List String)
    (results : List ComplianceResult) (now : String) (t s : String) :
    ((generate_compliance_report required_tags results
        now).resource_type_breakdown).lookup (PyKey.pair t s) =
      if (results.filter (fun r =>
          r.resource_type == t && r.compliance_status == s)).length = 0
      then none
      else some ((results.filter (fun r =>
        r.resource_type == t && r.compliance_status == s)).length) := by
  cases he : results.isEmpty with
  | true =>
    have hnil : results = [] := List.isEmpty_iff.mp he
    subst hnil
    simp [generate_compliance_report]
  | false =>
    simp only [generate_compliance_report, he, Bool.false_eq_true,
      if_false]
    rw [lookup_pair_map]
    have hmem : ((t, s) ∈
        (results.map (fun r =>
          (r.resource_type, r.compliance_status))).dedup) ↔
        0 < (results.filter (fun r =>
          r.resource_type == t && r.compliance_status == s)).length := by
      rw [List.mem_dedup, List.mem_map, ← List.countP_eq_length_filter,
        List.countP_pos_iff]
      constructor
      · rintro ⟨r, hr, heq⟩
        rw [Prod.ext_iff] at heq
        refine ⟨r, hr, ?_⟩
        simp only [Bool.and_eq_true, beq_iff_eq]
        exact ⟨heq.1, heq.2⟩
      · rintro ⟨r, hr, hpr⟩
        simp only [Bool.and_eq_true, beq_iff_eq] at hpr
        exact ⟨r, hr, by simp [hpr.1, hpr.2]⟩
    by_cases hz : (results.filter (fun r =>
        r.resource_type == t && r.compliance_status == s)).length = 0
    · have hnm : ¬ ((t, s) ∈
          (results.map (fun r =>
            (r.resource_type, r.compliance_status))).dedup) := by
        intro hm
        exact absurd (hmem.mp hm) (by omega)
      simp [hnm, hz]
    · have hpos := Nat.pos_of_ne_zero hz
      simp [hmem.mpr hpos, hz]

/-- C5 counterexample: with one non-compliant verdict of resource type
`"T"`, the breakdown has no entry under the string key
`"T|non_compliant"`; the entry lives under the tuple key
`("T", "non_compliant")`. -/
theorem resource_type_breakdown_key_shape :
    ((generate_compliance_report []
        ([⟨"id1", "vm1", "T", "rg", "sub", [], ["Owner"], "non_compliant",
          "t", 0⟩] : List ComplianceResult)
        "t").resource_type_breakdown).lookup
      (PyKey.str "T|non_compliant") = none ∧
    ((generate_compliance_report []
        ([⟨"id1", "vm1", "T", "rg", "sub", [], ["Owner"], "non_compliant",
          "t", 0⟩] : List ComplianceResult)
        "t").resource_type_breakdown).lookup
      (PyKey.pair "T" "non_compliant") = some 1 := by
  constructor <;> rfl

/-- Strings with equal code-point lists are equal. -/
theorem string_data_inj {a b : String} (h : a.data = b.data) : a = b := by
  cases a
  cases b
  exact congrArg String.mk h

/-- Ascending order on `(resource_group, count)` entries: count
ascending, ties by group name ascending (Python code-point order). -/
def ascLex (p q : String × Nat) : Prop :=
  p.2 < q.2 ∨ (p.2 = q.2 ∧ p.1.data < q.1.data)

/-- Descending order on `(resource_group, count)` entries: count
descending, ties by group name descending (Python code-point order). -/
def descLex (p q : String × Nat) : Prop :=
  q.2 < p.2 ∨ (p.2 = q.2 ∧ q.1.data < p.1.data)

/-- Inserting an entry whose group name is below every name of an
`ascLex`-sorted list keeps the list `ascLex`-sorted: the insertion by
count alone lands the new entry before its count-ties, which all carry
larger names. -/
theorem orderedInsert_ascLex (a : String × Nat) :
    ∀ s : List (String × Nat), s.Pairwise ascLex →
      (∀ b ∈ s, a.1.data < b.1.data) →
      (List.orderedInsert countLE a s).Pairwise ascLex := by
  intro s
  induction s with
  | nil =>
    intro _ _
    simp [List.orderedInsert]
  | cons b t ih =>
    intro hs hname
    rw [List.orderedInsert]
    by_cases hab : countLE a b
    · rw [if_pos hab]
      refine List.pairwise_cons.mpr ⟨?_, hs⟩
      intro x hx
      rcases List.mem_cons.mp hx with rfl | hxt
      · rcases Nat.lt_or_ge a.2 x.2 with h | h
        · exact Or.inl h
        · exact Or.inr ⟨Nat.le_antisymm hab h,
            hname x (List.mem_cons_self x t)⟩
      · have hbx := (List.pairwise_cons.mp hs).1 x hxt
        have hb2 : b.2 ≤ x.2 := by
          rcases hbx with h | ⟨h, _⟩
          · omega
          · omega
        rcases Nat.lt_or_ge a.2 x.2 with h | h
        · exact Or.inl h
        · exact Or.inr ⟨Nat.le_antisymm (le_trans hab hb2) h,
            hname x (List.mem_cons_of_mem b hxt)⟩
    · rw [if_neg hab]
      have hs' := List.pairwise_cons.mp hs
      refine List.pairwise_cons.mpr ⟨?_, ?_⟩
      · intro x hx
        rcases (List.mem_orderedInsert countLE).mp hx with rfl | hxt
        · exact Or.inl (Nat.lt_of_not_le hab)
        · exact hs'.1 x hxt
      · exact ih hs'.2 (fun x hx => hname x (List.mem_cons_of_mem b hx))

/-- Stable count-ascending insertion sort of a list whose group names
are strictly ascending is sorted by count ascending with ties by name
ascending. -/
theorem insertionSort_ascLex :
    ∀ l : List (String × Nat),
      l.Pairwise (fun p q => p.1.data < q.1.data) →
      (List.insertionSort countLE l).Pairwise ascLex := by
  intro l
  induction l with
  | nil =>
    intro _
    simp [List.insertionSort]
  | cons a t ih =>
    intro hl
    have h' := List.pairwise_cons.mp hl
    rw [List.insertionSort]
    exact orderedInsert_ascLex a _ (ih h'.2)
      (fun b hb => h'.1 b ((List.mem_insertionSort countLE).mp hb))

/-- The sorted deduplicated group names are strictly ascending in
code-point order. -/
theorem sorted_dedup_names_strict (names : List String) :
    (List.insertionSort pyStrLE names.dedup).Pairwise
      (fun a b => a.data < b.data) := by
  have hsorted : (List.insertionSort pyStrLE names.dedup).Pairwise pyStrLE :=
    List.sorted_insertionSort pyStrLE names.dedup
  have hnodup : (List.insertionSort pyStrLE names.dedup).Nodup :=
    ((List.perm_insertionSort pyStrLE names.dedup).nodup_iff).mpr
      names.nodup_dedup
  refine (hsorted.and hnodup).imp ?_
  rintro a b ⟨hle, hne⟩
  exact lt_of_le_of_ne hle (fun hdata => hne (string_data_inj hdata))

/-- The `top_violators` pipeline of `generate_compliance_report` (lines
197-205), named so its properties can be stated: filter the
non-compliant verdicts, group by resource group (pandas `groupby`,
keys sorted ascending) with counts, stable-sort ascending by count and
reverse (pandas `sort_values(ascending=False)`). -/
def topViolatorsOf (results : List ComplianceResult) :
    List (String × Nat) :=
  let nc := results.filter (fun r => r.compliance_status == "non_compliant")
  let group_names :=
    List.insertionSort pyStrLE ((nc.map (fun r => r.resource_group)).dedup)
  let group_counts := group_names.map (fun g =>
    (g, (nc.filter (fun r => r.resource_group == g)).length))
  (List.insertionSort countLE group_counts).reverse

/-- The top-violators list is sorted by count descending with ties by
group name descending. -/
theorem topViolatorsOf_pairwise (results : List ComplianceResult) :
    (topViolatorsOf results).Pairwise descLex := by
  unfold topViolatorsOf
  rw [List.pairwise_reverse]
  refine (insertionSort_ascLex _ ?_).imp ?_
  · rw [List.pairwise_map]
    exact sorted_dedup_names_strict _
  · intro a b hab
    rcases hab with h | ⟨heq, hlt⟩
    · exact Or.inl h
    · exact Or.inr ⟨heq.symm, hlt⟩

/-- Each resource group appears at most once among the top violators. -/
theorem topViolatorsOf_nodup_names (results : List ComplianceResult) :
    ((topViolatorsOf results).map Prod.fst).Nodup := by
  unfold topViolatorsOf
  rw [List.map_reverse, List.nodup_reverse]
  have hperm := (List.perm_insertionSort countLE
    ((List.insertionSort pyStrLE
      (((results.filter (fun r => r.compliance_status == "non_compliant")).map
        (fun r => r.resource_group)).dedup)).map
      (fun g => (g, ((results.filter (fun r =>
        r.compliance_status == "non_compliant")).filter
          (fun r => r.resource_group == g)).length)))).map Prod.fst
  rw [hperm.nodup_iff, List.map_map]
  have hid : (Prod.fst ∘ fun g : String =>
      (g, ((results.filter (fun r =>
        r.compliance_status == "non_compliant")).filter
          (fun r => r.resource_group == g)).length)) = id := rfl
  rw [hid, List.map_id]
  exact ((List.perm_insertionSort pyStrLE _).nodup_iff).mpr
    (List.nodup_dedup _)

/-- A group is listed among the top violators exactly when some verdict
in the collection is non-compliant and belongs to it. -/
theorem topViolatorsOf_mem_names (results : List ComplianceResult)
    (g : String) :
    g ∈ (topViolatorsOf results).map Prod.fst ↔
      ∃ r ∈ results, r.compliance_status = "non_compliant" ∧
        r.resource_group = g := by
  unfold topViolatorsOf
  rw [List.map_reverse, List.mem_reverse]
  have hperm := (List.perm_insertionSort countLE
    ((List.insertionSort pyStrLE
      (((results.filter (fun r => r.compliance_status == "non_compliant")).map
        (fun r => r.resource_group)).dedup)).map
      (fun h => (h, ((results.filter (fun r =>
        r.compliance_status == "non_compliant")).filter
          (fun r => r.resource_group == h)).length)))).map Prod.fst
  rw [hperm.mem_iff, List.map_map]
  have hid : (Prod.fst ∘ fun h : String =>
      (h, ((results.filter (fun r =>
        r.compliance_status == "non_compliant")).filter
          (fun r => r.resource_group == h)).length)) = id := rfl
  rw [hid, List.map_id, List.mem_insertionSort pyStrLE, List.mem_dedup,
    List.mem_map]
  constructor
  · rintro ⟨r, hr, rfl⟩
    have hm := List.mem_filter.mp hr
    exact ⟨r, hm.1, by simpa using hm.2, rfl⟩
  · rintro ⟨r, hr, hs, hg⟩
    exact ⟨r, List.mem_filter.mpr ⟨hr, by simp [hs]⟩, hg⟩

/-- Each top-violators entry carries the number of non-compliant
verdicts of its resource group. -/
theorem topViolatorsOf_counts (results : List ComplianceResult) :
    ∀ p ∈ topViolatorsOf results,
      p.2 = (results.filter (fun r =>
        r.compliance_status == "non_compliant" &&
          r.resource_group == p.1)).length := by
  unfold topViolatorsOf
  intro p hp
  rw [List.mem_reverse] at hp
  have hp2 := (List.mem_insertionSort countLE).mp hp
  obtain ⟨g, hg, rfl⟩ := List.mem_map.mp hp2
  rw [List.filter_filter]
  exact congrArg List.length
    (List.filter_congr (fun a _ => Bool.and_comm _ _))

/-- C4 (amended): `top_violators` is computed by grouping the
non-compliant verdicts by resource group, counting each group, sorting
by count descending with ties broken by resource-group name DESCENDING
(the code reverses pandas' stable ascending sort of the name-ascending
grouped index, so count-ties come out name-descending), and taking the
first 10 entries; in particular with non-compliant counts rg-a:5,
rg-b:5, rg-c:1 the order is rg-b before rg-a before rg-c. -/
theorem top_violators_spec (required_tags : List String)
    (results : List ComplianceResult) (now : String) :
    (topViolatorsOf results).Pairwise descLex ∧
    ((topViolatorsOf results).map Prod.fst).Nodup ∧
    (∀ g : String, g ∈ (topViolatorsOf results).map Prod.fst ↔
      ∃ r ∈ results, r.compliance_status = "non_compliant" ∧
        r.resource_group = g) ∧
    (∀ p ∈ topViolatorsOf results,
      p.2 = (results.filter (fun r =>
        r.compliance_status == "non_compliant" &&
          r.resource_group == p.1)).length) ∧
    (generate_compliance_report required_tags results now).top_violators =
      (topViolatorsOf results).take 10 := by
  refine ⟨topViolatorsOf_pairwise results,
    topViolatorsOf_nodup_names results,
    fun g => topViolatorsOf_mem_names results g,
    topViolatorsOf_counts results, ?_⟩
  cases he : results.isEmpty with
  | true =>
    have hnil : results = [] := List.isEmpty_iff.mp he
    subst hnil
    rfl
  | false =>
    simp only [generate_compliance_report, he, Bool.false_eq_true,
      if_false]
    rfl

/-- Eleven non-compliant verdicts: five in `rg-a`, five in `rg-b`, one
in `rg-c`. -/
def tieSample : List ComplianceResult :=
  [⟨"a1", "n", "T", "rg-a", "sub", [], ["Owner"], "non_compliant", "t", 0⟩,
   ⟨"a2", "n", "T", "rg-a", "sub", [], ["Owner"], "non_compliant", "t", 0⟩,
   ⟨"a3", "n", "T", "rg-a", "sub", [], ["Owner"], "non_compliant", "t", 0⟩,
   ⟨"a4", "n", "T", "rg-a", "sub", [], ["Owner"], "non_compliant", "t", 0⟩,
   ⟨"a5", "n", "T", "rg-a", "sub", [], ["Owner"], "non_compliant", "t", 0⟩,
   ⟨"b1", "n", "T", "rg-b", "sub", [], ["Owner"], "non_compliant", "t", 0⟩,
   ⟨"b2", "n", "T", "rg-b", "sub", [], ["Owner"], "non_compliant", "t", 0⟩,
   ⟨"b3", "n", "T", "rg-b", "sub", [], ["Owner"], "non_compliant", "t", 0⟩,
   ⟨"b4", "n", "T", "rg-b", "sub", [], ["Owner"], "non_compliant", "t", 0⟩,
   ⟨"b5", "n", "T", "rg-b", "sub", [], ["Owner"], "non_compliant", "t", 0⟩,
   ⟨"c1", "n", "T", "rg-c", "sub", [], ["Owner"], "non_compliant", "t", 0⟩]

/-- C4 counterexample: with non-compliant counts rg-a:5, rg-b:5,
rg-c:1 the report lists rg-b before rg-a (ties come out name
descending), not rg-a before rg-b as claimed. -/
theorem top_violators_tie_order :
    (generate_compliance_report [] tieSample "t").top_violators =
      [("rg-b", 5), ("rg-a", 5), ("rg-c", 1)] ∧
    (generate_compliance_report [] tieSample "t").top_violators ≠
      [("rg-a", 5), ("rg-b", 5), ("rg-c", 1)] := by
  constructor
  · decide
  · decide

end TagCompliance
